import Mathlib

/-!
Verification of the request-resolution engine of `sogni-gen.mjs`:
config merge, workflow resolution, asset validation and seed resolution,
shallowly embedded as pure Lean functions over the options record.
JavaScript truthiness of optional strings (null / empty string are falsy)
is modelled by `truthyS`, and of optional numbers (null / 0 falsy) by `truthyI`.
-/

/-- JS truthiness for a nullable string: null and `""` are falsy. -/
def truthyS : Option String → Bool
  | none => false
  | some s => !s.isEmpty

/-- JS truthiness for a nullable integer: null and 0 are falsy. -/
def truthyI : Option Int → Bool
  | none => false
  | some n => n != 0

/-- JS `a || b` on nullable strings: the first truthy operand wins. -/
def orTruthy (a b : Option String) : Option String :=
  if truthyS a then a else b

/-- Whether `pat` occurs at the head of `l`. -/
def subAt : List Char → List Char → Bool
  | [], _ => true
  | _ :: _, [] => false
  | a :: as, b :: bs => a == b && subAt as bs

/-- Whether `pat` occurs anywhere inside `l` (JS `String.prototype.includes`). -/
def hasSub (pat : List Char) : List Char → Bool
  | [] => subAt pat []
  | b :: bs => subAt pat (b :: bs) || hasSub pat bs

/-- JS `s.includes(pat)`. -/
def strHasSub (s pat : String) : Bool :=
  hasSub pat.toList s.toList

/-- Per-character lowercasing (JS `toLowerCase` on the identifiers involved);
structural over the character list. -/
def strToLower (s : String) : String :=
  String.mk (s.data.map Char.toLower)

/-- The mutable `options` record of `sogni-gen.mjs` (lines 113-139). -/
structure Options where
  prompt : Option String
  output : Option String
  model : Option String
  width : Int
  height : Int
  count : Int
  json : Bool
  quiet : Bool
  timeout : Int
  tokenType : Option String
  steps : Option Int
  guidance : Option Int
  seed : Option Int
  lastSeed : Bool
  seedStrategy : Option String
  video : Bool
  videoWorkflow : Option String
  fps : Int
  duration : Int
  frames : Option Int
  refImage : Option String
  refImageEnd : Option String
  refAudio : Option String
  refVideo : Option String
  contextImages : List String
deriving DecidableEq

/-- Initial values of the `options` record before CLI parsing. -/
def defaultOptions : Options where
  prompt := none
  output := none
  model := none
  width := 512
  height := 512
  count := 1
  json := false
  quiet := false
  timeout := 30000
  tokenType := none
  steps := none
  guidance := none
  seed := none
  lastSeed := false
  seedStrategy := none
  video := false
  videoWorkflow := none
  fps := 16
  duration := 5
  frames := none
  refImage := none
  refImageEnd := none
  refAudio := none
  refVideo := none
  contextImages := []

/-- The `cliSet` record tracking which flags the user set explicitly (lines 140-162). -/
structure CliSet where
  output : Bool
  model : Bool
  width : Bool
  height : Bool
  count : Bool
  timeout : Bool
  tokenType : Bool
  steps : Bool
  guidance : Bool
  seed : Bool
  seedStrategy : Bool
  video : Bool
  workflow : Bool
  fps : Bool
  duration : Bool
  frames : Bool
  refImage : Bool
  refImageEnd : Bool
  refAudio : Bool
  refVideo : Bool
  context : Bool
deriving DecidableEq

/-- Initial `cliSet` record: nothing explicitly set. -/
def defaultCliSet : CliSet where
  output := false
  model := false
  width := false
  height := false
  count := false
  timeout := false
  tokenType := false
  steps := false
  guidance := false
  seed := false
  seedStrategy := false
  video := false
  workflow := false
  fps := false
  duration := false
  frames := false
  refImage := false
  refImageEnd := false
  refAudio := false
  refVideo := false
  context := false

/-- The recognised keys of the OpenClaw plugin configuration used by the merge
(lines 331-368).  `Option Int` fields model `Number.isFinite` checks: `some`
means the key holds a finite number.  String fields keep JS truthiness. -/
structure PluginConfig where
  defaultWidth : Option Int
  defaultHeight : Option Int
  defaultCount : Option Int
  defaultTokenType : Option String
  seedStrategy : Option String
  defaultVideoWorkflow : Option String
  defaultFps : Option Int
  defaultDurationSec : Option Int
  defaultVideoTimeoutSec : Option Int
  defaultImageTimeoutSec : Option Int
deriving DecidableEq

/-- A plugin configuration with every key absent. -/
def emptyPluginConfig : PluginConfig where
  defaultWidth := none
  defaultHeight := none
  defaultCount := none
  defaultTokenType := none
  seedStrategy := none
  defaultVideoWorkflow := none
  defaultFps := none
  defaultDurationSec := none
  defaultVideoTimeoutSec := none
  defaultImageTimeoutSec := none

/-- The `openclawConfig` merge block (lines 331-368).  Each `if` in the source
guards a distinct field and reads only `cliSet`, the config and `options.video`,
so the sequential mutations are expressed as one simultaneous record update.
Returns the merged options together with the `timeoutFromConfig` flag. -/
def applyOpenclawConfig (o : Options) (cs : CliSet) : Option PluginConfig → Options × Bool
  | none => (o, false)
  | some c =>
    let width := if !cs.width && c.defaultWidth.isSome then c.defaultWidth.getD o.width else o.width
    let height := if !cs.height && c.defaultHeight.isSome then c.defaultHeight.getD o.height else o.height
    let count := if !cs.count && c.defaultCount.isSome then c.defaultCount.getD o.count else o.count
    let tokenType := if !cs.tokenType && truthyS c.defaultTokenType then c.defaultTokenType else o.tokenType
    let seedStrategy := if !cs.seedStrategy && truthyS c.seedStrategy then c.seedStrategy else o.seedStrategy
    let videoWorkflow := if o.video && (!cs.workflow && truthyS c.defaultVideoWorkflow) then c.defaultVideoWorkflow else o.videoWorkflow
    let fps := if o.video && (!cs.fps && c.defaultFps.isSome) then c.defaultFps.getD o.fps else o.fps
    let duration := if o.video && (!cs.frames && !cs.duration && c.defaultDurationSec.isSome) then c.defaultDurationSec.getD o.duration else o.duration
    let timeout :=
      if o.video then
        if !cs.timeout && c.defaultVideoTimeoutSec.isSome then c.defaultVideoTimeoutSec.getD 0 * 1000 else o.timeout
      else
        if !cs.timeout && c.defaultImageTimeoutSec.isSome then c.defaultImageTimeoutSec.getD 0 * 1000 else o.timeout
    let timeoutFromConfig :=
      if o.video then !cs.timeout && c.defaultVideoTimeoutSec.isSome
      else !cs.timeout && c.defaultImageTimeoutSec.isSome
    ({ o with
        width := width
        height := height
        count := count
        tokenType := tokenType
        seedStrategy := seedStrategy
        videoWorkflow := videoWorkflow
        fps := fps
        duration := duration
        timeout := timeout }, timeoutFromConfig)

/-- The merged options after the `openclawConfig` block. -/
def mergedOptions (o : Options) (cs : CliSet) (cfg : Option PluginConfig) : Options :=
  (applyOpenclawConfig o cs cfg).1

/-- `normalizeVideoWorkflow` (lines 24-33). -/
def normalizeVideoWorkflow (value : String) : Option String :=
  if value.isEmpty then none
  else
    let normalized := strToLower value
    if normalized = "t2v" || normalized = "text-to-video" then some "t2v"
    else if normalized = "i2v" || normalized = "image-to-video" then some "i2v"
    else if normalized = "s2v" || normalized = "sound-to-video" then some "s2v"
    else if normalized = "animate-move" || normalized = "animate_move" then some "animate-move"
    else if normalized = "animate-replace" || normalized = "animate_replace" then some "animate-replace"
    else none

/-- `inferVideoWorkflowFromModel` (lines 35-44). -/
def inferVideoWorkflowFromModel (modelId : Option String) : Option String :=
  match modelId with
  | none => none
  | some m =>
    if m.isEmpty then none
    else
      let id := strToLower m
      if strHasSub id "animate-move" then some "animate-move"
      else if strHasSub id "animate-replace" then some "animate-replace"
      else if strHasSub id "_t2v" || strHasSub id "-t2v" then some "t2v"
      else if strHasSub id "_i2v" || strHasSub id "-i2v" then some "i2v"
      else if strHasSub id "_s2v" || strHasSub id "-s2v" then some "s2v"
      else none

/-- `inferVideoWorkflowFromAssets` (lines 46-51). -/
def inferVideoWorkflowFromAssets (o : Options) : Option String :=
  if truthyS o.refVideo then some "animate-move"
  else if truthyS o.refAudio then some "s2v"
  else if truthyS o.refImage || truthyS o.refImageEnd then some "i2v"
  else none

/-- Validation and resolution errors; each constructor stands for one
`console.error` + `process.exit(1)` site, plus one for the uncaught
`JSON.parse` exception in the `--last-image` handler. -/
inductive CliError
  | unknownWorkflow (value : String)
  | workflowModelMismatch (workflow : String) (model : Option String)
  | t2vRefsNotAllowed
  | i2vMissingRef
  | i2vAudioVideoNotAllowed
  | s2vMissingRefAudio
  | s2vVideoNotAllowed
  | animateMissingRefVideo
  | animateAudioNotAllowed
  | lastRenderParseFailure
deriving DecidableEq

/-- The workflow normalization / inference block (lines 398-417). -/
def resolveWorkflowStage (o : Options) (cfg : Option PluginConfig) : Except CliError Options :=
  if o.video then
    let step1 : Except CliError Options :=
      if truthyS o.videoWorkflow then
        match normalizeVideoWorkflow (o.videoWorkflow.getD "") with
        | none => .error (.unknownWorkflow (o.videoWorkflow.getD ""))
        | some n => .ok { o with videoWorkflow := some n }
      else .ok o
    match step1 with
    | .error e => .error e
    | .ok o1 =>
      let workflowFromModel := inferVideoWorkflowFromModel o1.model
      if truthyS o1.videoWorkflow && workflowFromModel.isSome && o1.videoWorkflow != workflowFromModel then
        .error (.workflowModelMismatch (o1.videoWorkflow.getD "") o1.model)
      else if !truthyS o1.videoWorkflow then
        .ok { o1 with
                videoWorkflow := orTruthy workflowFromModel
                  (orTruthy (inferVideoWorkflowFromAssets o1)
                    (orTruthy (cfg.bind PluginConfig.defaultVideoWorkflow) (some "t2v"))) }
      else .ok o1
  else .ok o

/-- The per-workflow asset validation block (lines 461-495). -/
def validateVideoAssets (o : Options) : Except CliError Unit :=
  if o.video then
    if o.videoWorkflow == some "t2v" then
      if truthyS o.refImage || truthyS o.refImageEnd || truthyS o.refAudio || truthyS o.refVideo then
        .error .t2vRefsNotAllowed
      else .ok ()
    else if o.videoWorkflow == some "i2v" then
      if !truthyS o.refImage && !truthyS o.refImageEnd then .error .i2vMissingRef
      else if truthyS o.refAudio || truthyS o.refVideo then .error .i2vAudioVideoNotAllowed
      else .ok ()
    else if o.videoWorkflow == some "s2v" then
      if !truthyS o.refImage || !truthyS o.refAudio then .error .s2vMissingRefAudio
      else if truthyS o.refVideo then .error .s2vVideoNotAllowed
      else .ok ()
    else if o.videoWorkflow == some "animate-move" || o.videoWorkflow == some "animate-replace" then
      if !truthyS o.refImage || !truthyS o.refVideo then .error .animateMissingRefVideo
      else if truthyS o.refAudio then .error .animateAudioNotAllowed
      else .ok ()
    else .ok ()
  else .ok ()

/-- Which of the four video reference assets are present (truthy). -/
structure AssetSet where
  image : Bool
  imageEnd : Bool
  audio : Bool
  video : Bool
deriving DecidableEq

/-- The asset set carried by an options record. -/
def assetsOf (o : Options) : AssetSet :=
  ⟨truthyS o.refImage, truthyS o.refImageEnd, truthyS o.refAudio, truthyS o.refVideo⟩

/-- Acceptance table transcribed from the claim text (spec section 4.3):
the combinations each workflow accepts, used to compare against the
source-derived validator. -/
def specAssetTableAccepts (wf : String) (a : AssetSet) : Bool :=
  if wf = "t2v" then !a.image && !a.imageEnd && !a.audio && !a.video
  else if wf = "i2v" then (a.image || a.imageEnd) && !a.audio && !a.video
  else if wf = "s2v" then a.image && a.audio && !a.video
  else if wf = "animate-move" || wf = "animate-replace" then a.image && a.video && !a.audio
  else false

/-- `normalizeSeedStrategy` (lines 57-63); its argument is a (possibly empty,
hence falsy) string. -/
def normalizeSeedStrategy (value : String) : Option String :=
  if value.isEmpty then none
  else
    let normalized := strToLower value
    if normalized = "random" then some "random"
    else if normalized = "prompt-hash" || normalized = "prompt_hash" then some "prompt-hash"
    else none

/-- Big-endian 32-bit read of the first four bytes of a byte list
(Node `Buffer.readUInt32BE(0)`; missing bytes read as 0). -/
def readUInt32BE (bs : List Nat) : Nat :=
  bs.getD 0 0 * 16777216 + bs.getD 1 0 * 65536 + bs.getD 2 0 * 256 + bs.getD 3 0

/-- `generateRandomSeed` (lines 65-67): `randomBytes(4).readUInt32BE(0)`.
The four entropy bytes drawn from the OS are the explicit argument. -/
def generateRandomSeed (entropy : List Nat) : Nat :=
  readUInt32BE entropy

/-- Hex digit for JSON `\u00XX` escapes (lower case, as `JSON.stringify`). -/
def hexDigit (n : Nat) : Char :=
  if n < 10 then Char.ofNat (48 + n) else Char.ofNat (87 + n)

/-- Escaping of one character inside a JSON string, per `JSON.stringify`. -/
def jsonEscapeChar (c : Char) : String :=
  if c = '"' then "\\\""
  else if c = '\\' then "\\\\"
  else if c = Char.ofNat 8 then "\\b"
  else if c = Char.ofNat 9 then "\\t"
  else if c = Char.ofNat 10 then "\\n"
  else if c = Char.ofNat 12 then "\\f"
  else if c = Char.ofNat 13 then "\\r"
  else if c.toNat < 32 then "\\u00" ++ String.mk [hexDigit (c.toNat / 16), hexDigit (c.toNat % 16)]
  else String.mk [c]

/-- `JSON.stringify` of a string value. -/
def jsonString (s : String) : String :=
  "\"" ++ String.join (s.toList.map jsonEscapeChar) ++ "\""

/-- `JSON.stringify` of a nullable string value. -/
def jsonOptString : Option String → String
  | none => "null"
  | some s => jsonString s

/-- `JSON.stringify` of an array of strings. -/
def jsonStringArray (l : List String) : String :=
  "[" ++ String.intercalate "," (l.map jsonString) ++ "]"

/-- The serialized payload hashed by `computePromptHashSeed` (lines 70-82):
`JSON.stringify` of the payload object, keys in insertion order. -/
def payloadJson (o : Options) : String :=
  "\x7b\"prompt\":" ++ jsonString (o.prompt.getD "")
  ++ ",\"model\":" ++ jsonString (o.model.getD "")
  ++ ",\"workflow\":" ++ jsonOptString (if o.video then o.videoWorkflow else some "image")
  ++ ",\"width\":" ++ toString o.width
  ++ ",\"height\":" ++ toString o.height
  ++ ",\"refImage\":" ++ jsonString (o.refImage.getD "")
  ++ ",\"refImageEnd\":" ++ jsonString (o.refImageEnd.getD "")
  ++ ",\"refAudio\":" ++ jsonString (o.refAudio.getD "")
  ++ ",\"refVideo\":" ++ jsonString (o.refVideo.getD "")
  ++ ",\"contextImages\":" ++ jsonStringArray o.contextImages
  ++ "\x7d"

/-- Addition modulo 2^32. -/
def add32 (a b : Nat) : Nat := (a + b) % 4294967296

/-- Rotate a 32-bit word right by `n` positions. -/
def rotr32 (n x : Nat) : Nat := ((x >>> n) ||| ((x <<< (32 - n)) % 4294967296)) % 4294967296

/-- SHA-256 small sigma 0. -/
def smallSigma0 (x : Nat) : Nat := (rotr32 7 x) ^^^ (rotr32 18 x) ^^^ (x >>> 3)

/-- SHA-256 small sigma 1. -/
def smallSigma1 (x : Nat) : Nat := (rotr32 17 x) ^^^ (rotr32 19 x) ^^^ (x >>> 10)

/-- SHA-256 big sigma 0. -/
def bigSigma0 (x : Nat) : Nat := (rotr32 2 x) ^^^ (rotr32 13 x) ^^^ (rotr32 22 x)

/-- SHA-256 big sigma 1. -/
def bigSigma1 (x : Nat) : Nat := (rotr32 6 x) ^^^ (rotr32 11 x) ^^^ (rotr32 25 x)

/-- SHA-256 choice function. -/
def chFn (x y z : Nat) : Nat := (x &&& y) ^^^ ((x ^^^ 4294967295) &&& z)

/-- SHA-256 majority function. -/
def majFn (x y z : Nat) : Nat := (x &&& y) ^^^ (x &&& z) ^^^ (y &&& z)

/-- The 64 SHA-256 round constants (decimal). -/
def sha256K : List Nat :=
  [1116352408, 1899447441, 3049323471, 3921009573, 961987163, 1508970993,
   2453635748, 2870763221, 3624381080, 310598401, 607225278, 1426881987,
   1925078388, 2162078206, 2614888103, 3248222580, 3835390401, 4022224774,
   264347078, 604807628, 770255983, 1249150122, 1555081692, 1996064986,
   2554220882, 2821834349, 2952996808, 3210313671, 3336571891, 3584528711,
   113926993, 338241895, 666307205, 773529912, 1294757372, 1396182291,
   1695183700, 1986661051, 2177026350, 2456956037, 2730485921, 2820302411,
   3259730800, 3345764771, 3516065817, 3600352804, 4094571909, 275423344,
   430227734, 506948616, 659060556, 883997877, 958139571, 1322822218,
   1537002063, 1747873779, 1955562222, 2024104815, 2227730452, 2361852424,
   2428436474, 2756734187, 3204031479, 3329325298]

/-- The eight 32-bit hash words of a SHA-256 state. -/
structure Sha256State where
  h0 : Nat
  h1 : Nat
  h2 : Nat
  h3 : Nat
  h4 : Nat
  h5 : Nat
  h6 : Nat
  h7 : Nat

/-- The initial SHA-256 state words (decimal). -/
def sha256Init : Sha256State :=
  ⟨1779033703, 3144134277, 1013904242, 2773480762, 1359893119, 2600822924, 528734635, 1541459225⟩

/-- Combine four bytes into a big-endian 32-bit word. -/
def bytesToWord (b0 b1 b2 b3 : Nat) : Nat :=
  b0 * 16777216 + b1 * 65536 + b2 * 256 + b3

/-- Parse a 64-byte block into its 16 message words. -/
def blockWords : List Nat → List Nat
  | b0 :: b1 :: b2 :: b3 :: rest => bytesToWord b0 b1 b2 b3 :: blockWords rest
  | _ => []

/-- Append the next word of the SHA-256 message schedule. -/
def scheduleStep (ws : List Nat) : List Nat :=
  let n := ws.length
  ws ++ [add32 (add32 (smallSigma1 (ws.getD (n - 2) 0)) (ws.getD (n - 7) 0))
               (add32 (smallSigma0 (ws.getD (n - 15) 0)) (ws.getD (n - 16) 0))]

/-- Extend 16 message words to the full 64-word schedule. -/
def schedule (ws : List Nat) : List Nat :=
  (List.range 48).foldl (fun acc _ => scheduleStep acc) ws

/-- The eight working variables of the SHA-256 compression loop. -/
structure Sha256Work where
  a : Nat
  b : Nat
  c : Nat
  d : Nat
  e : Nat
  f : Nat
  g : Nat
  h : Nat

/-- One round of the SHA-256 compression loop. -/
def sha256Round (ws : List Nat) (st : Sha256Work) (t : Nat) : Sha256Work :=
  let t1 := add32 st.h (add32 (bigSigma1 st.e) (add32 (chFn st.e st.f st.g)
              (add32 (sha256K.getD t 0) (ws.getD t 0))))
  let t2 := add32 (bigSigma0 st.a) (majFn st.a st.b st.c)
  ⟨add32 t1 t2, st.a, st.b, st.c, add32 st.d t1, st.e, st.f, st.g⟩

/-- Compress one 64-byte block into the state. -/
def sha256Compress (st : Sha256State) (block : List Nat) : Sha256State :=
  let ws := schedule (blockWords block)
  let w := (List.range 64).foldl (sha256Round ws) ⟨st.h0, st.h1, st.h2, st.h3, st.h4, st.h5, st.h6, st.h7⟩
  ⟨add32 st.h0 w.a, add32 st.h1 w.b, add32 st.h2 w.c, add32 st.h3 w.d,
   add32 st.h4 w.e, add32 st.h5 w.f, add32 st.h6 w.g, add32 st.h7 w.h⟩

/-- The eight big-endian length bytes of the SHA-256 padding. -/
def lengthBytes (bitLen : Nat) : List Nat :=
  [bitLen / 72057594037927936 % 256, bitLen / 281474976710656 % 256,
   bitLen / 1099511627776 % 256, bitLen / 4294967296 % 256,
   bitLen / 16777216 % 256, bitLen / 65536 % 256, bitLen / 256 % 256, bitLen % 256]

/-- SHA-256 padding: `0x80`, zeros to 56 mod 64, then the 64-bit bit length. -/
def padMessage (msg : List Nat) : List Nat :=
  let zeros := (64 - (msg.length + 9) % 64) % 64
  msg ++ [128] ++ List.replicate zeros 0 ++ lengthBytes (msg.length * 8)

/-- Split a byte list into 64-byte chunks. -/
def chunks64 (l : List Nat) : List (List Nat) :=
  if h : l = [] then []
  else (l.take 64) :: chunks64 (l.drop 64)
termination_by l.length
decreasing_by
  cases l with
  | nil => exact absurd rfl h
  | cons a t => simp [List.length_drop]; omega

/-- SHA-256 of a byte list, as the eight-word final state. -/
def sha256Words (msg : List Nat) : Sha256State :=
  (chunks64 (padMessage msg)).foldl sha256Compress sha256Init

/-- The four big-endian bytes of a 32-bit word. -/
def wordBytes (w : Nat) : List Nat :=
  [w / 16777216 % 256, w / 65536 % 256, w / 256 % 256, w % 256]

/-- The 32-byte SHA-256 digest. -/
def sha256Digest (msg : List Nat) : List Nat :=
  let s := sha256Words msg
  wordBytes s.h0 ++ (wordBytes s.h1 ++ (wordBytes s.h2 ++ (wordBytes s.h3 ++
    (wordBytes s.h4 ++ (wordBytes s.h5 ++ (wordBytes s.h6 ++ wordBytes s.h7))))))

/-- UTF-8 encoding of one character, as byte values. -/
def utf8EncodeCharNat (c : Char) : List Nat :=
  let n := c.toNat
  if n < 128 then [n]
  else if n < 2048 then [192 + n / 64, 128 + n % 64]
  else if n < 65536 then [224 + n / 4096, 128 + n / 64 % 64, 128 + n % 64]
  else [240 + n / 262144, 128 + n / 4096 % 64, 128 + n / 64 % 64, 128 + n % 64]

/-- UTF-8 bytes of a string (`crypto.Hash.update` on a JS string). -/
def stringUtf8Bytes (s : String) : List Nat :=
  (s.data.map utf8EncodeCharNat).flatten

/-- `computePromptHashSeed` (lines 69-84): first four digest bytes of the
SHA-256 of the serialized payload, read big-endian. -/
def computePromptHashSeed (o : Options) : Nat :=
  readUInt32BE (sha256Digest (stringUtf8Bytes (payloadJson o)))

/-- The persisted last-render record fields consulted by this engine. -/
structure LastRender where
  seed : Option Int
  localPath : Option String
  urls : List String
deriving DecidableEq

/-- Outcome of reading and parsing the last-render file: file absent,
file present but `JSON.parse` throws, or a parsed record. -/
inductive RecordRead
  | missing
  | corrupt
  | ok (rec : LastRender)
deriving DecidableEq

/-- The `--last-seed` record read (lines 512-526): guarded by `existsSync`,
wrapped in try/catch, adopting the recorded seed only when truthy. -/
def applyLastSeed (o : Options) (r : RecordRead) : Options :=
  if o.lastSeed then
    match r with
    | .ok rec => if truthyI rec.seed then { o with seed := rec.seed } else o
    | _ => o
  else o

/-- The strategy string resolved at line 529-530:
`options.seedStrategy || openclawConfig?.seedStrategy || 'prompt-hash'`,
then `normalizeSeedStrategy(strategy) || 'prompt-hash'`. -/
def derivedStrategy (o : Options) (cfg : Option PluginConfig) : String :=
  match normalizeSeedStrategy
      ((orTruthy o.seedStrategy (orTruthy (cfg.bind PluginConfig.seedStrategy) (some "prompt-hash"))).getD "") with
  | some n => n
  | none => "prompt-hash"

/-- The seed-strategy derivation block (lines 528-536): runs only when the
seed is still null, stores the normalized strategy, then derives the seed. -/
def deriveSeed (o : Options) (cfg : Option PluginConfig) (entropy : List Nat) : Options :=
  match o.seed with
  | some _ => o
  | none =>
    let normalized := derivedStrategy o cfg
    let o1 := { o with seedStrategy := some normalized }
    { o1 with seed := some (Int.ofNat
        (if normalized = "random" then generateRandomSeed entropy else computePromptHashSeed o1)) }

/-- Full seed resolution: the `--last-seed` record read followed by the
strategy derivation guard. -/
def resolveSeed (o : Options) (cfg : Option PluginConfig) (r : RecordRead) (entropy : List Nat) : Options :=
  deriveSeed (applyLastSeed o r) cfg entropy

/-- The `--last-image` record read (lines 232-246): the `existsSync` guard
skips a missing file, but `JSON.parse` of a corrupt file throws with no
surrounding try/catch, modelled as an error result.  `localPathExists` is the
`existsSync` collaborator for the recorded local path. -/
def resolveLastImagePath (r : RecordRead) (localPathExists : String → Bool) : Except CliError (Option String) :=
  match r with
  | .missing => .ok none
  | .corrupt => .error .lastRenderParseFailure
  | .ok rec =>
    if truthyS rec.localPath && localPathExists (rec.localPath.getD "") then
      .ok rec.localPath
    else
      match rec.urls.head? with
      | some u => if u.isEmpty then .ok none else .ok (some u)
      | none => .ok none

/-- State of the last-render file as raw content, for the `--last` command
which prints without parsing. -/
inductive FileState
  | absent
  | present (content : String)
deriving DecidableEq

/-- The `--last` handler (lines 247-254): prints the raw record (or a notice)
and exits 0 in both cases; the file content is never parsed. -/
def runLastCommand : FileState → String × Int
  | .absent => ("No previous render found.", 0)
  | .present content => (content, 0)

theorem mergedOptions_model (o : Options) (cs : CliSet) (cfg : Option PluginConfig) :
    (mergedOptions o cs cfg).model = o.model := by
  cases cfg <;> simp [mergedOptions, applyOpenclawConfig]

theorem mergedOptions_video (o : Options) (cs : CliSet) (cfg : Option PluginConfig) :
    (mergedOptions o cs cfg).video = o.video := by
  cases cfg <;> simp [mergedOptions, applyOpenclawConfig]

theorem mergedOptions_refs (o : Options) (cs : CliSet) (cfg : Option PluginConfig) :
    (mergedOptions o cs cfg).refImage = o.refImage
    ∧ (mergedOptions o cs cfg).refImageEnd = o.refImageEnd
    ∧ (mergedOptions o cs cfg).refAudio = o.refAudio
    ∧ (mergedOptions o cs cfg).refVideo = o.refVideo := by
  cases cfg <;> simp [mergedOptions, applyOpenclawConfig]

theorem inferAssets_mergedOptions (o : Options) (cs : CliSet) (cfg : Option PluginConfig) :
    inferVideoWorkflowFromAssets (mergedOptions o cs cfg) = inferVideoWorkflowFromAssets o := by
  obtain ⟨h1, h2, h3, h4⟩ := mergedOptions_refs o cs cfg
  simp [inferVideoWorkflowFromAssets, h1, h2, h3, h4]

theorem mergedOptions_videoWorkflow (o : Options) (cs : CliSet) (cfg : Option PluginConfig)
    (hv : o.video = true) (hcw : cs.workflow = false) :
    (mergedOptions o cs cfg).videoWorkflow =
      if truthyS (cfg.bind PluginConfig.defaultVideoWorkflow) then cfg.bind PluginConfig.defaultVideoWorkflow
      else o.videoWorkflow := by
  cases cfg <;> simp [mergedOptions, applyOpenclawConfig, hv, hcw, truthyS]

theorem normalizeVideoWorkflow_mem (v w : String) (h : normalizeVideoWorkflow v = some w) :
    w = "t2v" ∨ w = "i2v" ∨ w = "s2v" ∨ w = "animate-move" ∨ w = "animate-replace" := by
  by_cases he : v.isEmpty <;> simp [normalizeVideoWorkflow, he] at h
  split_ifs at h <;> simp_all

theorem normalizeVideoWorkflow_truthy (v w : String) (h : normalizeVideoWorkflow v = some w) :
    truthyS (some w) = true := by
  rcases normalizeVideoWorkflow_mem v w h with h' | h' | h' | h' | h' <;> subst h' <;> decide

theorem resolveWorkflowStage_falsy (o : Options) (cfg : Option PluginConfig)
    (hv : o.video = true) (hw : truthyS o.videoWorkflow = false) :
    resolveWorkflowStage o cfg = .ok { o with
      videoWorkflow := orTruthy (inferVideoWorkflowFromModel o.model)
        (orTruthy (inferVideoWorkflowFromAssets o)
          (orTruthy (cfg.bind PluginConfig.defaultVideoWorkflow) (some "t2v"))) } := by
  simp [resolveWorkflowStage, hv, hw]

theorem resolveWorkflowStage_truthy (o : Options) (cfg : Option PluginConfig)
    (hv : o.video = true) (w : String) (hw : truthyS o.videoWorkflow = true)
    (hn : normalizeVideoWorkflow (o.videoWorkflow.getD "") = some w) :
    resolveWorkflowStage o cfg =
      if (inferVideoWorkflowFromModel o.model).isSome && (some w != inferVideoWorkflowFromModel o.model) then
        .error (.workflowModelMismatch w o.model)
      else .ok { o with videoWorkflow := some w } := by
  have ht := normalizeVideoWorkflow_truthy _ _ hn
  simp [resolveWorkflowStage, hv, hw, hn, ht]

/-- C3: every field the user explicitly supplied on the command line survives
the plugin-config merge unchanged, for every plugin configuration; every field
outside the merge is never touched, so plugin defaults apply only to fields the
user did not set. -/
theorem c3_cli_precedence (o : Options) (cs : CliSet) (cfg : Option PluginConfig) :
    (cs.width = true → (mergedOptions o cs cfg).width = o.width)
    ∧ (cs.height = true → (mergedOptions o cs cfg).height = o.height)
    ∧ (cs.count = true → (mergedOptions o cs cfg).count = o.count)
    ∧ (cs.tokenType = true → (mergedOptions o cs cfg).tokenType = o.tokenType)
    ∧ (cs.seedStrategy = true → (mergedOptions o cs cfg).seedStrategy = o.seedStrategy)
    ∧ (cs.workflow = true → (mergedOptions o cs cfg).videoWorkflow = o.videoWorkflow)
    ∧ (cs.fps = true → (mergedOptions o cs cfg).fps = o.fps)
    ∧ (cs.duration = true → (mergedOptions o cs cfg).duration = o.duration)
    ∧ (cs.timeout = true → (mergedOptions o cs cfg).timeout = o.timeout)
    ∧ (mergedOptions o cs cfg).prompt = o.prompt
    ∧ (mergedOptions o cs cfg).model = o.model
    ∧ (mergedOptions o cs cfg).seed = o.seed
    ∧ (mergedOptions o cs cfg).lastSeed = o.lastSeed
    ∧ (mergedOptions o cs cfg).video = o.video
    ∧ (mergedOptions o cs cfg).steps = o.steps
    ∧ (mergedOptions o cs cfg).guidance = o.guidance
    ∧ (mergedOptions o cs cfg).frames = o.frames
    ∧ (mergedOptions o cs cfg).refImage = o.refImage
    ∧ (mergedOptions o cs cfg).refImageEnd = o.refImageEnd
    ∧ (mergedOptions o cs cfg).refAudio = o.refAudio
    ∧ (mergedOptions o cs cfg).refVideo = o.refVideo
    ∧ (mergedOptions o cs cfg).contextImages = o.contextImages := by
  cases cfg with
  | none => simp [mergedOptions, applyOpenclawConfig]
  | some c =>
    refine ⟨?_, ?_, ?_, ?_, ?_, ?_, ?_, ?_, ?_, ?_, ?_, ?_, ?_, ?_, ?_, ?_, ?_, ?_, ?_, ?_, ?_, ?_⟩ <;>
      first
        | (intro h; simp [mergedOptions, applyOpenclawConfig, h])
        | simp [mergedOptions, applyOpenclawConfig]

def c3WOpts : Options :=
  { defaultOptions with width := 777, tokenType := some "sogni" }

def c3WCli : CliSet :=
  { defaultCliSet with width := true, tokenType := true }

def c3WCfg : PluginConfig :=
  { emptyPluginConfig with defaultWidth := some 999, defaultTokenType := some "spark" }

theorem c3_cli_precedence_witness :
    (mergedOptions c3WOpts c3WCli (some c3WCfg)).width = 777
    ∧ (mergedOptions c3WOpts c3WCli (some c3WCfg)).tokenType = some "sogni" := by
  have h := c3_cli_precedence c3WOpts c3WCli (some c3WCfg)
  exact ⟨h.1 rfl, h.2.2.2.1 rfl⟩

/-- C5: an explicit `--seed` value not overridden by `--last-seed` is the
resolved seed, whatever the seed strategy flag or plugin configuration says;
the derivation block is skipped and the options are unchanged. -/
theorem c5_explicit_seed (o : Options) (cfg : Option PluginConfig) (r : RecordRead)
    (entropy : List Nat) (s : Int) (hl : o.lastSeed = false) (hs : o.seed = some s) :
    resolveSeed o cfg r entropy = o ∧ (resolveSeed o cfg r entropy).seed = some s := by
  have h1 : applyLastSeed o r = o := by simp [applyLastSeed, hl]
  have h2 : deriveSeed o cfg entropy = o := by simp [deriveSeed, hs]
  refine ⟨?_, ?_⟩ <;> simp [resolveSeed, h1, h2, hs]

def c5WOpts : Options :=
  { defaultOptions with seed := some 42, seedStrategy := some "random" }

theorem c5_explicit_seed_witness :
    (resolveSeed c5WOpts none RecordRead.missing []).seed = some 42 :=
  (c5_explicit_seed c5WOpts none RecordRead.missing [] 42 rfl rfl).2

/-- C10: with `--last-seed`, a record whose seed is truthy (non-zero) is adopted
as the resolved seed, overriding even an explicit `--seed`; a record whose seed
is 0 or absent is ignored and resolution proceeds exactly as with no record. -/
theorem c10_last_seed_override (o : Options) (cfg : Option PluginConfig) (rec : LastRender)
    (entropy : List Nat) (hl : o.lastSeed = true) :
    (∀ s : Int, rec.seed = some s → s ≠ 0 →
      (resolveSeed o cfg (.ok rec) entropy).seed = some s)
    ∧ ((rec.seed = none ∨ rec.seed = some 0) →
      resolveSeed o cfg (.ok rec) entropy = resolveSeed o cfg .missing entropy) := by
  constructor
  · intro s hsrec hs0
    have ht : truthyI rec.seed = true := by simp [truthyI, hsrec, hs0]
    have h1 : applyLastSeed o (.ok rec) = { o with seed := rec.seed } := by
      simp [applyLastSeed, hl, ht]
    simp [resolveSeed, h1, deriveSeed, hsrec]
  · intro hfalsy
    have ht : truthyI rec.seed = false := by
      rcases hfalsy with h | h <;> simp [truthyI, h]
    have h1 : applyLastSeed o (.ok rec) = o := by simp [applyLastSeed, hl, ht]
    have h2 : applyLastSeed o .missing = o := by simp [applyLastSeed, hl]
    simp [resolveSeed, h1, h2]

def c10WOpts : Options :=
  { defaultOptions with lastSeed := true, seed := some 42 }

def c10WRec : LastRender where
  seed := some 7
  localPath := none
  urls := []

theorem c10_last_seed_override_witness :
    (resolveSeed c10WOpts none (.ok c10WRec) []).seed = some 7 :=
  (c10_last_seed_override c10WOpts none c10WRec [] rfl).1 7 rfl (by decide)

/-- C8: `--last-seed` with no prior render record does not fail: the record
read is a no-op and the seed is derived from the resolved strategy
(explicit flag, else plugin configuration, else prompt-hash). -/
theorem c8_last_seed_fallthrough (o : Options) (cfg : Option PluginConfig) (entropy : List Nat)
    (hl : o.lastSeed = true) (hs : o.seed = none) :
    (resolveSeed o cfg .missing entropy).seed = some (Int.ofNat
        (if derivedStrategy o cfg = "random" then generateRandomSeed entropy
         else computePromptHashSeed { o with seedStrategy := some (derivedStrategy o cfg) }))
    ∧ (resolveSeed o cfg .missing entropy).seedStrategy = some (derivedStrategy o cfg) := by
  have h1 : applyLastSeed o .missing = o := by simp [applyLastSeed, hl]
  refine ⟨?_, ?_⟩ <;> simp [resolveSeed, h1, deriveSeed, hs]

def c8WOpts : Options :=
  { defaultOptions with lastSeed := true, seedStrategy := some "random" }

theorem c8_last_seed_fallthrough_witness :
    c8WOpts.lastSeed = true
    ∧ (resolveSeed c8WOpts none .missing [1, 2, 3, 4]).seed = some 16909060 := by
  have h := (c8_last_seed_fallthrough c8WOpts none [1, 2, 3, 4] rfl rfl).1
  refine ⟨rfl, ?_⟩
  rw [h]
  simp only [show derivedStrategy c8WOpts none = "random" from by decide, if_pos]
  decide

def c9Opts : Options :=
  { defaultOptions with lastSeed := true }

/-- C9 (code bug): the `--last-seed` read and the `--last` command are
best-effort (a missing or corrupt record is recovered), but the `--last-image`
read parses the record with no try/catch, so a corrupt last-render file
escapes as an uncaught exception instead of being treated as no prior
render. -/
theorem c9_last_image_crash :
    resolveLastImagePath RecordRead.corrupt (fun _ => true) = .error CliError.lastRenderParseFailure
    ∧ resolveLastImagePath RecordRead.missing (fun _ => true) = .ok none
    ∧ applyLastSeed c9Opts RecordRead.corrupt = c9Opts
    ∧ applyLastSeed c9Opts RecordRead.missing = c9Opts
    ∧ runLastCommand (FileState.present "this is not json") = ("this is not json", 0)
    ∧ runLastCommand FileState.absent = ("No previous render found.", 0) :=
  ⟨rfl, rfl, rfl, rfl, rfl, rfl⟩

/-- C2: in video mode the asset validator accepts exactly the combinations of
the per-workflow requirement table (t2v: no references; i2v: image and/or end
image, no audio/video; s2v: image and audio, no video; animate workflows:
image and video, no audio) and rejects every other combination. -/
theorem c2_asset_table (o : Options) (hv : o.video = true) (wf : String)
    (hw : o.videoWorkflow = some wf)
    (hmem : wf = "t2v" ∨ wf = "i2v" ∨ wf = "s2v" ∨ wf = "animate-move" ∨ wf = "animate-replace") :
    (validateVideoAssets o = .ok ()) ↔ specAssetTableAccepts wf (assetsOf o) = true := by
  rcases hmem with h | h | h | h | h <;> subst h <;>
    cases hI : truthyS o.refImage <;> cases hE : truthyS o.refImageEnd <;>
    cases hA : truthyS o.refAudio <;> cases hV : truthyS o.refVideo <;>
    simp [validateVideoAssets, specAssetTableAccepts, assetsOf, hv, hw, hI, hE, hA, hV]

def c2WOpts : Options :=
  { defaultOptions with video := true, videoWorkflow := some "s2v", refImage := some "a.jpg" }

theorem c2_asset_table_witness :
    specAssetTableAccepts "s2v" (assetsOf c2WOpts) = false
    ∧ validateVideoAssets c2WOpts ≠ .ok () := by
  have h := c2_asset_table c2WOpts rfl "s2v" rfl (Or.inr (Or.inr (Or.inl rfl)))
  exact ⟨by decide, fun hok => absurd (h.mp hok) (by decide)⟩

/-- The tuple of generation parameters the claim names, with each nullable
identifier defaulted to an empty value, exactly as the hash payload defaults
them. -/
def promptHashTuple (o : Options) :
    String × String × Option String × Int × Int × String × String × String × String × List String :=
  (o.prompt.getD "", o.model.getD "", (if o.video then o.videoWorkflow else some "image"),
   o.width, o.height, o.refImage.getD "", o.refImageEnd.getD "", o.refAudio.getD "",
   o.refVideo.getD "", o.contextImages)

/-- C4: the prompt-hash seed is a pure deterministic function of
(prompt, model, workflow-or-image, width, height, the four reference-asset
identifiers, context-image list): equal tuples give equal seeds. -/
theorem c4_prompt_hash_deterministic (o1 o2 : Options)
    (h : promptHashTuple o1 = promptHashTuple o2) :
    computePromptHashSeed o1 = computePromptHashSeed o2 := by
  have hp : payloadJson o1 = payloadJson o2 := by
    simp [promptHashTuple, Prod.ext_iff] at h
    obtain ⟨h1, h2, h3, h4, h5, h6, h7, h8, h9, h10⟩ := h
    simp [payloadJson, h1, h2, h3, h4, h5, h6, h7, h8, h9, h10]
  simp [computePromptHashSeed, hp]

def c4WOpts1 : Options :=
  { defaultOptions with prompt := some "a cat wearing a hat", seed := some 5, quiet := true }

def c4WOpts2 : Options :=
  { defaultOptions with prompt := some "a cat wearing a hat", seed := some 9, json := true }

theorem c4_prompt_hash_deterministic_witness :
    c4WOpts1 ≠ c4WOpts2
    ∧ computePromptHashSeed c4WOpts1 = computePromptHashSeed c4WOpts2 :=
  ⟨by decide, c4_prompt_hash_deterministic c4WOpts1 c4WOpts2 rfl⟩

theorem getD_lt_256 (l : List Nat) (i : Nat) (h : ∀ b ∈ l, b < 256) : l.getD i 0 < 256 := by
  induction l generalizing i with
  | nil => simp [List.getD]
  | cons a t ih =>
    cases i with
    | zero => simpa using h a (by simp)
    | succ j => simpa using ih j (fun b hb => h b (by simp [hb]))

theorem readUInt32BE_lt (bs : List Nat) (h : ∀ b ∈ bs, b < 256) :
    readUInt32BE bs < 4294967296 := by
  have h0 := getD_lt_256 bs 0 h
  have h1 := getD_lt_256 bs 1 h
  have h2 := getD_lt_256 bs 2 h
  have h3 := getD_lt_256 bs 3 h
  unfold readUInt32BE
  omega

theorem sha256Digest_first_lt (msg : List Nat) :
    readUInt32BE (sha256Digest msg) < 4294967296 := by
  unfold sha256Digest wordBytes
  simp only [List.cons_append, readUInt32BE, List.getD_cons_zero, List.getD_cons_succ]
  omega

theorem computePromptHashSeed_lt (o : Options) :
    computePromptHashSeed o < 4294967296 := by
  unfold computePromptHashSeed
  exact sha256Digest_first_lt _

def c7Opts : Options :=
  { defaultOptions with seed := some 4294967296 }

/-- C7 counterexample: an explicit `--seed 4294967296` (2^32) completes seed
resolution with that exact value, which is not a 32-bit unsigned integer. -/
theorem c7_counterexample :
    (resolveSeed c7Opts none .missing []).seed = some 4294967296
    ∧ ¬ ((4294967296 : Int) < 4294967296) :=
  ⟨rfl, by omega⟩

/-- C7 amended: every seed produced by the derivation strategies (random with
four entropy bytes, or prompt-hash) is a 32-bit unsigned integer; seeds taken
verbatim from `--seed` or from the last-render record are not subject to this
bound. -/
theorem c7_amended (o : Options) (cfg : Option PluginConfig) (r : RecordRead)
    (entropy : List Nat) (he : ∀ b ∈ entropy, b < 256)
    (h : (applyLastSeed o r).seed = none) :
    ∃ s : Nat, (resolveSeed o cfg r entropy).seed = some (Int.ofNat s) ∧ s < 4294967296 := by
  unfold resolveSeed
  refine ⟨if derivedStrategy (applyLastSeed o r) cfg = "random" then generateRandomSeed entropy
          else computePromptHashSeed { applyLastSeed o r with
            seedStrategy := some (derivedStrategy (applyLastSeed o r) cfg) }, ?_, ?_⟩
  · simp [deriveSeed, h]
  · split
    · exact readUInt32BE_lt entropy he
    · exact computePromptHashSeed_lt _

def c7WOpts : Options :=
  { defaultOptions with seedStrategy := some "random" }

theorem c7_amended_witness :
    ∃ s : Nat, (resolveSeed c7WOpts none .missing [1, 2, 3, 4]).seed = some (Int.ofNat s)
      ∧ s < 4294967296 :=
  c7_amended c7WOpts none .missing [1, 2, 3, 4] (by decide) rfl

theorem resolveWorkflowStage_truthy_mismatch (o : Options) (cfg : Option PluginConfig)
    (hv : o.video = true) (w m : String) (hw : truthyS o.videoWorkflow = true)
    (hn : normalizeVideoWorkflow (o.videoWorkflow.getD "") = some w)
    (hm : inferVideoWorkflowFromModel o.model = some m) (hne : w ≠ m) :
    resolveWorkflowStage o cfg = .error (.workflowModelMismatch w o.model) := by
  rw [resolveWorkflowStage_truthy o cfg hv w hw hn]
  simp [hm, hne]

theorem resolveWorkflowStage_truthy_ok (o : Options) (cfg : Option PluginConfig)
    (hv : o.video = true) (w : String) (hw : truthyS o.videoWorkflow = true)
    (hn : normalizeVideoWorkflow (o.videoWorkflow.getD "") = some w)
    (hm : inferVideoWorkflowFromModel o.model = none ∨ inferVideoWorkflowFromModel o.model = some w) :
    resolveWorkflowStage o cfg = .ok { o with videoWorkflow := some w } := by
  rw [resolveWorkflowStage_truthy o cfg hv w hw hn]
  rcases hm with hm | hm <;> simp [hm]

def c6Opts : Options :=
  { defaultOptions with
      video := true
      model := some "wan_v2.2-14b-fp8_t2v_lightx2v" }

def c6Cfg : PluginConfig :=
  { emptyPluginConfig with defaultVideoWorkflow := some "i2v" }

/-- C6 counterexample: with no explicit `--workflow` flag at all, a
plugin-configured defaultVideoWorkflow of i2v merged against a t2v model still
fails the mismatch check, although only one of the two sources the claim names
(the model inference) is present. -/
theorem c6_counterexample :
    defaultCliSet.workflow = false
    ∧ inferVideoWorkflowFromModel c6Opts.model = some "t2v"
    ∧ resolveWorkflowStage (mergedOptions c6Opts defaultCliSet (some c6Cfg)) (some c6Cfg)
        = .error (.workflowModelMismatch "i2v" (some "wan_v2.2-14b-fp8_t2v_lightx2v")) := by
  refine ⟨rfl, by decide, rfl⟩

/-- C6 amended: in video mode the mismatch check compares the workflow value
present at resolution time (the explicit `--workflow` flag, or the
plugin-configured defaultVideoWorkflow merged in beforehand) with the
model-inferred workflow: when both are present after normalization and they
disagree, resolution fails with a workflow error; when they agree, or the
present workflow value is falsy, this check does not fail. -/
theorem c6_amended (o : Options) (cfg : Option PluginConfig) (hv : o.video = true) :
    (∀ w m, truthyS o.videoWorkflow = true →
      normalizeVideoWorkflow (o.videoWorkflow.getD "") = some w →
      inferVideoWorkflowFromModel o.model = some m → w ≠ m →
      resolveWorkflowStage o cfg = .error (.workflowModelMismatch w o.model))
    ∧ (∀ w, truthyS o.videoWorkflow = true →
      normalizeVideoWorkflow (o.videoWorkflow.getD "") = some w →
      (inferVideoWorkflowFromModel o.model = none ∨ inferVideoWorkflowFromModel o.model = some w) →
      resolveWorkflowStage o cfg = .ok { o with videoWorkflow := some w })
    ∧ (truthyS o.videoWorkflow = false →
      resolveWorkflowStage o cfg = .ok { o with
        videoWorkflow := orTruthy (inferVideoWorkflowFromModel o.model)
          (orTruthy (inferVideoWorkflowFromAssets o)
            (orTruthy (cfg.bind PluginConfig.defaultVideoWorkflow) (some "t2v"))) }) := by
  refine ⟨?_, ?_, resolveWorkflowStage_falsy o cfg hv⟩
  · intro w m hw hn hm hne
    exact resolveWorkflowStage_truthy_mismatch o cfg hv w m hw hn hm hne
  · intro w hw hn hm
    exact resolveWorkflowStage_truthy_ok o cfg hv w hw hn hm

def c6WOpts : Options :=
  { defaultOptions with
      video := true
      videoWorkflow := some "text-to-video"
      model := some "wan_v2.2-14b-fp8_t2v_lightx2v" }

theorem c6_amended_witness :
    resolveWorkflowStage c6WOpts none = .ok { c6WOpts with videoWorkflow := some "t2v" } :=
  (c6_amended c6WOpts none rfl).2.1 "t2v" rfl (by decide) (Or.inr (by decide))

def c1Opts : Options :=
  { defaultOptions with
      video := true
      refAudio := some "speech.m4a" }

def c1Cfg : PluginConfig :=
  { emptyPluginConfig with defaultVideoWorkflow := some "i2v" }

/-- C1 counterexample: with `--video`, no `--workflow` flag, no model, and a
reference audio present (asset inference yields s2v), the plugin-configured
defaultVideoWorkflow i2v is chosen instead of the asset-inferred s2v. -/
theorem c1_counterexample :
    inferVideoWorkflowFromAssets c1Opts = some "s2v"
    ∧ resolveWorkflowStage (mergedOptions c1Opts defaultCliSet (some c1Cfg)) (some c1Cfg)
        = .ok { mergedOptions c1Opts defaultCliSet (some c1Cfg) with videoWorkflow := some "i2v" }
    ∧ ("i2v" : String) ≠ "s2v" := by
  refine ⟨by decide, rfl, by decide⟩

/-- C1 amended: with `--video` and no explicit `--workflow` flag, when the
plugin configuration supplies no truthy defaultVideoWorkflow the resolver
picks the first source yielding a value among model inference, asset inference
and the fallback t2v; when the plugin configuration supplies a
defaultVideoWorkflow it is merged in beforehand and preempts asset inference
(being checked against the model-inferred workflow like an explicit flag)
rather than being consulted only after the inferences. -/
theorem c1_amended (o : Options) (cs : CliSet) (cfg : Option PluginConfig)
    (hv : o.video = true) (hcw : cs.workflow = false) (hwf : o.videoWorkflow = none) :
    ((mergedOptions o cs cfg).model = o.model
      ∧ inferVideoWorkflowFromAssets (mergedOptions o cs cfg) = inferVideoWorkflowFromAssets o)
    ∧ (truthyS (cfg.bind PluginConfig.defaultVideoWorkflow) = false →
      resolveWorkflowStage (mergedOptions o cs cfg) cfg = .ok { mergedOptions o cs cfg with
        videoWorkflow := orTruthy (inferVideoWorkflowFromModel o.model)
          (orTruthy (inferVideoWorkflowFromAssets o) (some "t2v")) })
    ∧ (∀ d, cfg.bind PluginConfig.defaultVideoWorkflow = some d → truthyS (some d) = true →
      (mergedOptions o cs cfg).videoWorkflow = some d
      ∧ (∀ w, normalizeVideoWorkflow d = some w → inferVideoWorkflowFromModel o.model = none →
        resolveWorkflowStage (mergedOptions o cs cfg) cfg
          = .ok { mergedOptions o cs cfg with videoWorkflow := some w })) := by
  have hm := mergedOptions_model o cs cfg
  have hvid := mergedOptions_video o cs cfg
  have hassets := inferAssets_mergedOptions o cs cfg
  have hwfl := mergedOptions_videoWorkflow o cs cfg hv hcw
  have hv' : (mergedOptions o cs cfg).video = true := by rw [hvid, hv]
  refine ⟨⟨hm, hassets⟩, ?_, ?_⟩
  · intro hfalse
    have hnone : (mergedOptions o cs cfg).videoWorkflow = none := by
      rw [hwfl, if_neg (by simp [hfalse]), hwf]
    have hstage := resolveWorkflowStage_falsy (mergedOptions o cs cfg) cfg hv'
      (by rw [hnone]; rfl)
    rw [hstage]
    have hchain : orTruthy (inferVideoWorkflowFromModel (mergedOptions o cs cfg).model)
        (orTruthy (inferVideoWorkflowFromAssets (mergedOptions o cs cfg))
          (orTruthy (cfg.bind PluginConfig.defaultVideoWorkflow) (some "t2v")))
        = orTruthy (inferVideoWorkflowFromModel o.model)
            (orTruthy (inferVideoWorkflowFromAssets o) (some "t2v")) := by
      rw [hm, hassets]
      have horc : orTruthy (cfg.bind PluginConfig.defaultVideoWorkflow) (some "t2v") = some "t2v" := by
        simp [orTruthy, hfalse]
      rw [horc]
    rw [hchain]
  · intro d hd htd
    have hsome : (mergedOptions o cs cfg).videoWorkflow = some d := by
      rw [hwfl, if_pos (by rw [hd]; exact htd), hd]
    refine ⟨hsome, ?_⟩
    intro w hnorm hmodel
    have hmodel' : inferVideoWorkflowFromModel (mergedOptions o cs cfg).model = none := by
      rw [hm]; exact hmodel
    exact resolveWorkflowStage_truthy_ok (mergedOptions o cs cfg) cfg hv' w
      (by rw [hsome]; exact htd) (by rw [hsome]; simpa using hnorm) (Or.inl hmodel')

def c1WOpts : Options :=
  { defaultOptions with
      video := true
      refImage := some "cat.jpg" }

theorem c1_amended_witness :
    resolveWorkflowStage (mergedOptions c1WOpts defaultCliSet none) none
      = .ok { mergedOptions c1WOpts defaultCliSet none with videoWorkflow := some "i2v" } := by
  have h := (c1_amended c1WOpts defaultCliSet none rfl rfl rfl).2.1 rfl
  rw [h]
  rfl
